import Mathlib

/-!
Verification development for the zombie_scape_server repository.

The server core (src/src/main.rs and src/src/protocol/messages.rs) is embedded
shallowly: the per-connection dispatcher `handle_client_message` becomes a pure
function from a client message and a registry to a server message and an
updated registry; the session registry (a mutex-guarded `HashMap<String,
Arc<Mutex<GameSession>>>` in the source) becomes an association list with
HashMap-style lookup/insert/remove; `f32` values are modelled as rationals.

The simulation engine (the `zombie_scape` crate) is not part of the server
sources; it is treated as an opaque collaborator, exactly as the spec's §1/§6
prescribe, and is passed in as an `Engine` record of its constructor and its
fixed-timestep step function.
-/

set_option autoImplicit false

namespace ZombieScapeServer

/-- Modelled from the spec: the engine's configuration type (the `zombie_scape`
crate is out of scope); §6 requires "at least maze width/height and cell size". -/
structure GameConfig where
  maze_width : Nat
  maze_height : Nat
  cell_size : ℚ

/-- Modelled from the spec: the engine's status enumeration — "running / one or
more terminal outcomes" (§3).  The server sources use only `Running` (in the
CloseSession placeholder snapshot) and otherwise carry the status opaquely. -/
inductive GameStatus where
  | Running
  | FugitiveEscaped
  | FugitiveCaught
deriving DecidableEq

/-- Modelled from the spec: the engine's `Grid2D` query surface — width, height,
cell size and a per-world-coordinate walkability query (§6).  A world point is
a pair of rationals standing for the source's `Vector2D`. -/
structure Grid2D where
  width : Nat
  height : Nat
  cell_size : ℚ
  is_walkable : ℚ × ℚ → Bool

/-- Modelled from the spec: the data the engine's `FugitiveSnapshot::from_agent`
conversion exposes for the fugitive agent (kinematics, vision, optional path). -/
structure FugitiveView where
  position : ℚ × ℚ
  velocity : ℚ × ℚ
  current_path : Option (List (ℚ × ℚ))
  vision_range : ℚ
  vision_angle : ℚ

/-- Modelled from the spec: the data the engine's `ZombieSnapshot::from_agent`
conversion exposes for one zombie agent. -/
structure ZombieView where
  position : ℚ × ℚ
  velocity : ℚ × ℚ
  state : String
  vision_range : ℚ
  vision_angle : ℚ
  last_seen_position : Option (ℚ × ℚ)
  current_path : Option (List (ℚ × ℚ))

/-- Modelled from the spec: the engine's `GameState` as observed by the server
core — current tick count, status, per-agent views, the configuration, the
grid, and the start/exit positions (`state.start_position()` /
`state.exit_position()` in main.rs). -/
structure GameState where
  current_step : Nat
  status : GameStatus
  fugitive : FugitiveView
  zombies : List ZombieView
  config : GameConfig
  grid : Grid2D
  start_position : ℚ × ℚ
  exit_position : ℚ × ℚ

/-- Modelled from the spec: the engine's surface used by the server —
`GameState::new(config) -> GameState` (infallible, §1) and the fixed-timestep
`GameState::step(dt)` (§1, §6).  The server is parametric in it. -/
structure Engine where
  new : GameConfig → GameState
  step : ℚ → GameState → GameState

/-- Game session wrapper (main.rs:13-16): a stable identity plus one engine
state. -/
structure GameSession where
  id : String
  state : GameState

/-- main.rs:19-24, `GameSession::new`: the fresh UUID produced by
`Uuid::new_v4().to_string()` is modelled as an externally supplied fresh
string `freshId`. -/
def GameSession.new (eng : Engine) (freshId : String) (config : GameConfig) : GameSession :=
  { id := freshId, state := eng.new config }

/-- The fixed timestep constant `DT` (main.rs:27): `0.016_f32`, the "~60 FPS
timestep". -/
def DT : ℚ := 16 / 1000

/-- The loop body of `GameSession::step` (main.rs:28-30): applies the engine's
step with the constant `DT`, once per iteration, and records the `dt` argument
of every engine invocation in a trace. -/
def stepLoop (estep : ℚ → GameState → GameState) :
    Nat → GameState × List ℚ → GameState × List ℚ
  | 0, acc => acc
  | Nat.succ n, (st, tr) => stepLoop estep n (estep DT st, tr ++ [DT])

/-- main.rs:26-31, `GameSession::step(steps)`: run the engine `steps` times
back-to-back with timestep `DT`. -/
def GameSession.step (estep : ℚ → GameState → GameState) (s : GameSession)
    (steps : Nat) : GameSession :=
  { s with state := (stepLoop estep steps (s.state, [])).1 }

/-- The sequence of `dt` arguments with which `GameSession::step(steps)` invokes
the engine's `GameState::step`, read off the same loop. -/
def GameSession.stepTrace (estep : ℚ → GameState → GameState) (s : GameSession)
    (steps : Nat) : List ℚ :=
  (stepLoop estep steps (s.state, [])).2

/-- protocol/messages.rs:79-87, `MazeInfo`. -/
structure MazeInfo where
  width : Nat
  height : Nat
  cell_size : ℚ
  start_position : ℚ × ℚ
  exit_position : ℚ × ℚ

/-- protocol/messages.rs:47-77, `AgentSnapshot`: tagged union over the two agent
kinds. -/
inductive AgentSnapshot where
  | Fugitive (position : ℚ × ℚ) (velocity : ℚ × ℚ)
      (current_path : Option (List (ℚ × ℚ)))
      (vision_angle : ℚ) (vision_range : ℚ)
  | Zombie (position : ℚ × ℚ) (velocity : ℚ × ℚ) (state : String)
      (vision_range : ℚ) (vision_angle : ℚ)
      (last_seen_position : Option (ℚ × ℚ))
      (current_path : Option (List (ℚ × ℚ)))

/-- protocol/messages.rs:34-41, `GameStateSnapshot`. -/
structure GameStateSnapshot where
  step : Nat
  status : GameStatus
  fugitive : AgentSnapshot
  zombies : List AgentSnapshot
  maze_info : MazeInfo

/-- protocol/messages.rs:5-12, `ClientMessage`. -/
inductive ClientMessage where
  | CreateSession (config : GameConfig)
  | StepSimulation (session_id : String) (steps : Nat)
  | GetState (session_id : String)
  | CloseSession (session_id : String)

/-- protocol/messages.rs:15-31, `ServerMessage`.  Only the `SessionCreated`
variant carries a maze grid. -/
inductive ServerMessage where
  | SessionCreated (session_id : String) (initial_state : GameStateSnapshot)
      (maze_grid : List (List String))
  | StateUpdate (session_id : String) (state : GameStateSnapshot)
  | Error (message : String) (code : String)

/-- main.rs:33-80, `GameSession::get_snapshot`: converts the engine state into
the wire snapshot. -/
def GameSession.get_snapshot (s : GameSession) : GameStateSnapshot :=
  { step := s.state.current_step
    status := s.state.status
    fugitive := AgentSnapshot.Fugitive s.state.fugitive.position
      s.state.fugitive.velocity s.state.fugitive.current_path
      s.state.fugitive.vision_angle s.state.fugitive.vision_range
    zombies := s.state.zombies.map (fun z =>
      AgentSnapshot.Zombie z.position z.velocity z.state z.vision_range
        z.vision_angle z.last_seen_position z.current_path)
    maze_info :=
      { width := s.state.config.maze_width
        height := s.state.config.maze_height
        cell_size := s.state.config.cell_size
        start_position := s.state.start_position
        exit_position := s.state.exit_position } }

/-- main.rs:84, `SessionRegistry`: the mutex/Arc layers of
`Arc<Mutex<HashMap<String, Arc<Mutex<GameSession>>>>>` are flattened into a
pure association list with HashMap-style operations. -/
abbrev SessionRegistry := List (String × GameSession)

/-- `HashMap::get`: first entry with the given key. -/
def lookupSession : SessionRegistry → String → Option GameSession
  | [], _ => none
  | (k, s) :: rest, id => if k = id then some s else lookupSession rest id

/-- `HashMap::insert`: replace the entry with the given key if present,
otherwise add it. -/
def insertSession : SessionRegistry → String → GameSession → SessionRegistry
  | [], id, s => [(id, s)]
  | (k, v) :: rest, id, s =>
      if k = id then (id, s) :: rest else (k, v) :: insertSession rest id s

/-- `HashMap::remove`: take out the entry with the given key, returning it
alongside the remaining map. -/
def removeSession : SessionRegistry → String → Option GameSession × SessionRegistry
  | [], _ => (none, [])
  | (k, s) :: rest, id =>
      if k = id then (some s, rest)
      else
        let r := removeSession rest id
        (r.1, (k, s) :: r.2)

/-- main.rs:155-180, `serialize_grid`: row-major walkability tags, cell `(x,y)`
sampled at the world-coordinate center `((x+0.5)*cell_size, (y+0.5)*cell_size)`. -/
def serialize_grid (grid : Grid2D) : List (List String) :=
  (List.range grid.height).map (fun (y : Nat) =>
    (List.range grid.width).map (fun (x : Nat) =>
      let world_x : ℚ := ((x : ℚ) + 1/2) * grid.cell_size
      let world_y : ℚ := ((y : ℚ) + 1/2) * grid.cell_size
      if grid.is_walkable (world_x, world_y) then "walkable" else "wall"))

/-- The placeholder snapshot built inline in the CloseSession arm
(main.rs:258-276): step 0, status Running, zeroed fugitive, no zombies, zeroed
maze info. -/
def closeSessionSnapshot : GameStateSnapshot :=
  { step := 0
    status := GameStatus.Running
    fugitive := AgentSnapshot.Fugitive (0, 0) (0, 0) none 0 0
    zombies := []
    maze_info :=
      { width := 0
        height := 0
        cell_size := 0
        start_position := (0, 0)
        exit_position := (0, 0) } }

/-- main.rs:182-286, `handle_client_message`: the protocol dispatcher as a pure
function.  In the source the registry is mutated through the shared mutex; here
the updated registry is returned alongside the response.  `freshId` stands for
the UUID that `CreateSession` would generate. -/
def handle_client_message (eng : Engine) (freshId : String) (msg : ClientMessage)
    (reg : SessionRegistry) : ServerMessage × SessionRegistry :=
  match msg with
  | ClientMessage.CreateSession config =>
      let session := GameSession.new eng freshId config
      let session_id := session.id
      let initial_state := session.get_snapshot
      let maze_grid := serialize_grid session.state.grid
      (ServerMessage.SessionCreated session_id initial_state maze_grid,
       insertSession reg session_id session)
  | ClientMessage.StepSimulation session_id steps =>
      match lookupSession reg session_id with
      | some session =>
          let stepped := GameSession.step eng.step session steps
          let state := stepped.get_snapshot
          (ServerMessage.StateUpdate session_id state,
           insertSession reg session_id stepped)
      | none =>
          (ServerMessage.Error ("Session not found: " ++ session_id)
            "session_not_found", reg)
  | ClientMessage.GetState session_id =>
      match lookupSession reg session_id with
      | some session =>
          (ServerMessage.StateUpdate session_id session.get_snapshot, reg)
      | none =>
          (ServerMessage.Error ("Session not found: " ++ session_id)
            "session_not_found", reg)
  | ClientMessage.CloseSession session_id =>
      match removeSession reg session_id with
      | (some _, rest) =>
          (ServerMessage.StateUpdate session_id closeSessionSnapshot, rest)
      | (none, rest) =>
          (ServerMessage.Error ("Session not found: " ++ session_id)
            "session_not_found", rest)

/-- Run a sequence of dispatches, threading the registry; each request comes
with the fresh id its CreateSession (if any) would draw. -/
def runAll (eng : Engine) : List (String × ClientMessage) → SessionRegistry → SessionRegistry
  | [], reg => reg
  | (fid, msg) :: rest, reg =>
      runAll eng rest (handle_client_message eng fid msg reg).2

/-- The maze grid carried by a response, if any: by the shape of
`ServerMessage` (protocol/messages.rs:17-31) only `SessionCreated` has one. -/
def mazeGridOf : ServerMessage → Option (List (List String))
  | ServerMessage.SessionCreated _ _ mg => some mg
  | ServerMessage.StateUpdate _ _ => none
  | ServerMessage.Error _ _ => none

/-- The identity a request addresses, if any. -/
def requestTarget : ClientMessage → Option String
  | ClientMessage.CreateSession _ => none
  | ClientMessage.StepSimulation id _ => some id
  | ClientMessage.GetState id => some id
  | ClientMessage.CloseSession id => some id

/-- Registry key consistency: every entry's key equals the stored session's id. -/
def KeyConsistent (reg : SessionRegistry) : Prop :=
  ∀ p, p ∈ reg → p.1 = p.2.id

/-- The response's session id agrees with the identity the request addressed
(or, for `SessionCreated`, with the identity of the session just registered). -/
def respIdOk (msg : ClientMessage) (out : ServerMessage × SessionRegistry) : Prop :=
  match out.1 with
  | ServerMessage.SessionCreated id _ _ =>
      ∃ s, lookupSession out.2 id = some s ∧ s.id = id
  | ServerMessage.StateUpdate id _ => requestTarget msg = some id
  | ServerMessage.Error _ _ => True

/-- Lock/engine events of one dispatch, for reasoning about which locks are
held while the engine steps. -/
inductive LockEvent where
  | acquireRegistry
  | releaseRegistry
  | acquireSession (id : String)
  | releaseSession (id : String)
  | engineStep (id : String)
deriving DecidableEq

/-- The lock/engine event sequence of the StepSimulation arm (main.rs:210-230),
read off the source's guard scopes: the registry mutex guard (`sessions`,
main.rs:213) is taken first and dropped at the end of the match arm; inside the
`Some` branch the session mutex guard (main.rs:217) is taken, the engine is
stepped `steps` times (main.rs:28-30), and the session guard is dropped at the
end of the branch — before the registry guard. -/
def stepSimulationLockTrace (reg : SessionRegistry) (session_id : String)
    (steps : Nat) : List LockEvent :=
  LockEvent.acquireRegistry ::
    ((match lookupSession reg session_id with
      | some _ =>
          LockEvent.acquireSession session_id ::
            (List.replicate steps (LockEvent.engineStep session_id) ++
              [LockEvent.releaseSession session_id])
      | none => []) ++ [LockEvent.releaseRegistry])

/-- Concrete engine and sessions for instantiating the theorems below. -/
def demoConfig : GameConfig :=
  { maze_width := 10, maze_height := 10, cell_size := 1 }

def demoGrid : Grid2D :=
  { width := 10, height := 10, cell_size := 1, is_walkable := fun _ => true }

def demoFugitive : FugitiveView :=
  { position := (0, 0), velocity := (0, 0), current_path := none
    vision_range := 5, vision_angle := 1 }

def demoState : GameState :=
  { current_step := 0, status := GameStatus.Running, fugitive := demoFugitive
    zombies := [], config := demoConfig, grid := demoGrid
    start_position := (0, 0), exit_position := (9, 9) }

def demoEngine : Engine :=
  { new := fun _ => demoState
    step := fun _ st => { st with current_step := st.current_step + 1 } }

def demoSession (id : String) : GameSession :=
  { id := id, state := demoState }

def demoReg : SessionRegistry :=
  [("A", demoSession "A"), ("B", demoSession "B")]

theorem stepLoop_eq (estep : ℚ → GameState → GameState) :
    ∀ (n : Nat) (st : GameState) (tr : List ℚ),
      stepLoop estep n (st, tr) = ((estep DT)^[n] st, tr ++ List.replicate n DT) := by
  intro n
  induction n with
  | zero => intro st tr; simp [stepLoop]
  | succ n ih =>
      intro st tr
      simp only [stepLoop, ih, Function.iterate_succ_apply, List.replicate_succ]
      simp

theorem GameSession.step_eq (estep : ℚ → GameState → GameState) (s : GameSession)
    (n : Nat) :
    GameSession.step estep s n = { s with state := (estep DT)^[n] s.state } := by
  simp [GameSession.step, stepLoop_eq]

theorem GameSession.stepTrace_eq (estep : ℚ → GameState → GameState)
    (s : GameSession) (n : Nat) :
    GameSession.stepTrace estep s n = List.replicate n DT := by
  simp [GameSession.stepTrace, stepLoop_eq]

theorem GameSession.step_id (estep : ℚ → GameState → GameState) (s : GameSession)
    (n : Nat) : (GameSession.step estep s n).id = s.id := rfl

theorem lookupSession_some_mem {reg : SessionRegistry} {id : String}
    {s : GameSession} (h : lookupSession reg id = some s) : (id, s) ∈ reg := by
  induction reg with
  | nil => simp [lookupSession] at h
  | cons p rest ih =>
      obtain ⟨k, v⟩ := p
      by_cases hk : k = id
      · subst hk
        simp [lookupSession] at h
        subst h
        exact List.mem_cons_self _ _
      · simp [lookupSession, hk] at h
        exact List.mem_cons_of_mem _ (ih h)

theorem lookupSession_eq_none_of_not_mem {reg : SessionRegistry} {id : String}
    (h : id ∉ reg.map Prod.fst) : lookupSession reg id = none := by
  induction reg with
  | nil => rfl
  | cons p rest ih =>
      obtain ⟨k, v⟩ := p
      simp only [List.map_cons, List.mem_cons] at h
      push_neg at h
      have hk : k ≠ id := fun hkid => h.1 hkid.symm
      simp [lookupSession, hk, ih h.2]

theorem lookupSession_insertSession_self (reg : SessionRegistry) (id : String)
    (s : GameSession) : lookupSession (insertSession reg id s) id = some s := by
  induction reg with
  | nil => simp [insertSession, lookupSession]
  | cons p rest ih =>
      obtain ⟨k, v⟩ := p
      by_cases hk : k = id
      · simp [insertSession, hk, lookupSession]
      · simp [insertSession, hk, lookupSession, ih]

theorem mem_insertSession (id : String) (s : GameSession) :
    ∀ (reg : SessionRegistry) (p : String × GameSession),
      p ∈ insertSession reg id s → p = (id, s) ∨ p ∈ reg := by
  intro reg
  induction reg with
  | nil => intro p h; simp [insertSession] at h; exact Or.inl h
  | cons q rest ih =>
      obtain ⟨k, v⟩ := q
      intro p h
      by_cases hk : k = id
      · subst hk
        have hins : insertSession ((k, v) :: rest) k s = (k, s) :: rest := by
          simp [insertSession]
        rw [hins] at h
        rcases List.mem_cons.mp h with h1 | h1
        · exact Or.inl h1
        · exact Or.inr (List.mem_cons_of_mem _ h1)
      · have hins : insertSession ((k, v) :: rest) id s
            = (k, v) :: insertSession rest id s := by
          simp [insertSession, hk]
        rw [hins] at h
        rcases List.mem_cons.mp h with h1 | h1
        · exact Or.inr (by simp [h1])
        · rcases ih p h1 with h2 | h2
          · exact Or.inl h2
          · exact Or.inr (List.mem_cons_of_mem _ h2)

theorem removeSession_of_lookup_none {reg : SessionRegistry} {id : String}
    (h : lookupSession reg id = none) : removeSession reg id = (none, reg) := by
  induction reg with
  | nil => rfl
  | cons p rest ih =>
      obtain ⟨k, v⟩ := p
      by_cases hk : k = id
      · simp [lookupSession, hk] at h
      · simp [lookupSession, hk] at h
        simp [removeSession, hk, ih h]

theorem removeSession_fst {reg : SessionRegistry} {id : String} {s : GameSession}
    (h : lookupSession reg id = some s) : (removeSession reg id).1 = some s := by
  induction reg with
  | nil => simp [lookupSession] at h
  | cons p rest ih =>
      obtain ⟨k, v⟩ := p
      by_cases hk : k = id
      · subst hk
        simp [lookupSession] at h
        simp [removeSession, h]
      · simp [lookupSession, hk] at h
        simp [removeSession, hk, ih h]

theorem mem_removeSession_snd (id : String) :
    ∀ (reg : SessionRegistry) (p : String × GameSession),
      p ∈ (removeSession reg id).2 → p ∈ reg := by
  intro reg
  induction reg with
  | nil => intro p h; simp [removeSession] at h
  | cons q rest ih =>
      obtain ⟨k, v⟩ := q
      intro p h
      by_cases hk : k = id
      · subst hk
        simp only [removeSession, if_pos rfl] at h
        exact List.mem_cons_of_mem _ h
      · simp only [removeSession, if_neg hk, List.mem_cons] at h
        rcases h with h | h
        · simp [h]
        · exact List.mem_cons_of_mem _ (ih p h)

theorem lookup_removeSession_snd {reg : SessionRegistry} {id : String}
    (hnd : (reg.map Prod.fst).Nodup) :
    lookupSession (removeSession reg id).2 id = none := by
  induction reg with
  | nil => rfl
  | cons p rest ih =>
      obtain ⟨k, v⟩ := p
      simp only [List.map_cons, List.nodup_cons] at hnd
      by_cases hk : k = id
      · subst hk
        simp only [removeSession, if_pos rfl]
        exact lookupSession_eq_none_of_not_mem hnd.1
      · simp only [removeSession, if_neg hk]
        simp [lookupSession, hk, ih hnd.2]

theorem handle_create_eq (eng : Engine) (fid : String) (config : GameConfig)
    (reg : SessionRegistry) :
    handle_client_message eng fid (ClientMessage.CreateSession config) reg
      = (ServerMessage.SessionCreated fid
           (GameSession.new eng fid config).get_snapshot
           (serialize_grid (eng.new config).grid),
         insertSession reg fid (GameSession.new eng fid config)) := rfl

theorem handle_step_some (eng : Engine) (fid id : String) (steps : Nat)
    {reg : SessionRegistry} {s : GameSession} (hl : lookupSession reg id = some s) :
    handle_client_message eng fid (ClientMessage.StepSimulation id steps) reg
      = (ServerMessage.StateUpdate id
           (GameSession.step eng.step s steps).get_snapshot,
         insertSession reg id (GameSession.step eng.step s steps)) := by
  simp [handle_client_message, hl]

theorem handle_step_none (eng : Engine) (fid id : String) (steps : Nat)
    {reg : SessionRegistry} (hl : lookupSession reg id = none) :
    handle_client_message eng fid (ClientMessage.StepSimulation id steps) reg
      = (ServerMessage.Error ("Session not found: " ++ id) "session_not_found",
         reg) := by
  simp [handle_client_message, hl]

theorem handle_get_some (eng : Engine) (fid id : String)
    {reg : SessionRegistry} {s : GameSession} (hl : lookupSession reg id = some s) :
    handle_client_message eng fid (ClientMessage.GetState id) reg
      = (ServerMessage.StateUpdate id s.get_snapshot, reg) := by
  simp [handle_client_message, hl]

theorem handle_get_none (eng : Engine) (fid id : String)
    {reg : SessionRegistry} (hl : lookupSession reg id = none) :
    handle_client_message eng fid (ClientMessage.GetState id) reg
      = (ServerMessage.Error ("Session not found: " ++ id) "session_not_found",
         reg) := by
  simp [handle_client_message, hl]

theorem handle_close_some (eng : Engine) (fid id : String)
    {reg : SessionRegistry} {s : GameSession} (hl : lookupSession reg id = some s) :
    handle_client_message eng fid (ClientMessage.CloseSession id) reg
      = (ServerMessage.StateUpdate id closeSessionSnapshot,
         (removeSession reg id).2) := by
  have h1 : (removeSession reg id).1 = some s := removeSession_fst hl
  rcases hr : removeSession reg id with ⟨o, rest⟩
  rw [hr] at h1
  subst h1
  simp [handle_client_message, hr]

theorem handle_close_none (eng : Engine) (fid id : String)
    {reg : SessionRegistry} (hl : lookupSession reg id = none) :
    handle_client_message eng fid (ClientMessage.CloseSession id) reg
      = (ServerMessage.Error ("Session not found: " ++ id) "session_not_found",
         reg) := by
  have hr : removeSession reg id = (none, reg) := removeSession_of_lookup_none hl
  simp [handle_client_message, hr]

theorem keyConsistent_insertSession {reg : SessionRegistry} {id : String}
    {s : GameSession} (hkc : KeyConsistent reg) (hid : s.id = id) :
    KeyConsistent (insertSession reg id s) := by
  intro p hp
  rcases mem_insertSession id s reg p hp with h | h
  · subst h; exact hid.symm
  · exact hkc p h

theorem keyConsistent_removeSession {reg : SessionRegistry} (id : String)
    (hkc : KeyConsistent reg) : KeyConsistent (removeSession reg id).2 :=
  fun p hp => hkc p (mem_removeSession_snd id reg p hp)

theorem keyConsistent_handle (eng : Engine) (fid : String) (msg : ClientMessage)
    (reg : SessionRegistry) (hkc : KeyConsistent reg) :
    KeyConsistent (handle_client_message eng fid msg reg).2 := by
  cases msg with
  | CreateSession config =>
      rw [handle_create_eq]
      exact keyConsistent_insertSession hkc rfl
  | StepSimulation id steps =>
      cases hl : lookupSession reg id with
      | some s =>
          rw [handle_step_some eng fid id steps hl]
          have hid : id = s.id := hkc (id, s) (lookupSession_some_mem hl)
          exact keyConsistent_insertSession hkc
            ((GameSession.step_id eng.step s steps).trans hid.symm)
      | none => rw [handle_step_none eng fid id steps hl]; exact hkc
  | GetState id =>
      cases hl : lookupSession reg id with
      | some s => rw [handle_get_some eng fid id hl]; exact hkc
      | none => rw [handle_get_none eng fid id hl]; exact hkc
  | CloseSession id =>
      cases hl : lookupSession reg id with
      | some s =>
          rw [handle_close_some eng fid id hl]
          exact keyConsistent_removeSession id hkc
      | none => rw [handle_close_none eng fid id hl]; exact hkc

theorem keyConsistent_runAll (eng : Engine) :
    ∀ (msgs : List (String × ClientMessage)) (reg : SessionRegistry),
      KeyConsistent reg → KeyConsistent (runAll eng msgs reg) := by
  intro msgs
  induction msgs with
  | nil => intro reg hkc; exact hkc
  | cons p rest ih =>
      intro reg hkc
      exact ih _ (keyConsistent_handle eng p.1 p.2 reg hkc)

/-- Claim C2: for every session identity not present in the registry, each of
StepSimulation, GetState and CloseSession returns exactly one Error response
with code "session_not_found", and the registry is left unchanged. -/
theorem c2_unknown_session_errors (eng : Engine) (fid id : String) (steps : Nat)
    (reg : SessionRegistry) (hl : lookupSession reg id = none) :
    handle_client_message eng fid (ClientMessage.StepSimulation id steps) reg
      = (ServerMessage.Error ("Session not found: " ++ id) "session_not_found",
         reg) ∧
    handle_client_message eng fid (ClientMessage.GetState id) reg
      = (ServerMessage.Error ("Session not found: " ++ id) "session_not_found",
         reg) ∧
    handle_client_message eng fid (ClientMessage.CloseSession id) reg
      = (ServerMessage.Error ("Session not found: " ++ id) "session_not_found",
         reg) :=
  ⟨handle_step_none eng fid id steps hl, handle_get_none eng fid id hl,
   handle_close_none eng fid id hl⟩

/-- Claim C2 witness: a concrete unknown identity against the demo registry. -/
theorem c2_witness :
    handle_client_message demoEngine "F" (ClientMessage.StepSimulation "C" 3) demoReg
      = (ServerMessage.Error ("Session not found: " ++ "C") "session_not_found",
         demoReg) ∧
    handle_client_message demoEngine "F" (ClientMessage.GetState "C") demoReg
      = (ServerMessage.Error ("Session not found: " ++ "C") "session_not_found",
         demoReg) ∧
    handle_client_message demoEngine "F" (ClientMessage.CloseSession "C") demoReg
      = (ServerMessage.Error ("Session not found: " ++ "C") "session_not_found",
         demoReg) :=
  c2_unknown_session_errors demoEngine "F" "C" 3 demoReg rfl

/-- Claim C3: stepping by n and then by m yields the same session (and hence
the same snapshot) as stepping once by n+m. -/
theorem c3_step_additivity (estep : ℚ → GameState → GameState) (s : GameSession)
    (n m : Nat) :
    GameSession.step estep (GameSession.step estep s n) m
      = GameSession.step estep s (n + m) ∧
    (GameSession.step estep (GameSession.step estep s n) m).get_snapshot
      = (GameSession.step estep s (n + m)).get_snapshot := by
  have h : GameSession.step estep (GameSession.step estep s n) m
      = GameSession.step estep s (n + m) := by
    simp only [GameSession.step_eq]
    rw [Nat.add_comm n m, Function.iterate_add_apply]
  exact ⟨h, by rw [h]⟩

/-- Claim C4: GameSession::step(n) invokes the engine's step exactly n times,
each with the same fixed timestep DT = 0.016 ≈ 1/60; step(0) invokes the
engine zero times and leaves the session unchanged. -/
theorem c4_step_fixed_timestep (estep : ℚ → GameState → GameState)
    (s : GameSession) (n : Nat) :
    GameSession.stepTrace estep s n = List.replicate n DT ∧
    (GameSession.stepTrace estep s n).length = n ∧
    (∀ d, d ∈ GameSession.stepTrace estep s n → d = DT) ∧
    DT = 16 / 1000 ∧ (1 : ℚ) / 60 - DT = 1 / 1500 ∧
    GameSession.step estep s n = { s with state := (estep DT)^[n] s.state } ∧
    GameSession.stepTrace estep s 0 = [] ∧
    GameSession.step estep s 0 = s := by
  refine ⟨GameSession.stepTrace_eq estep s n, ?_, ?_, rfl, ?_, ?_, ?_, ?_⟩
  · rw [GameSession.stepTrace_eq]; exact List.length_replicate n DT
  · intro d hd
    rw [GameSession.stepTrace_eq] at hd
    exact List.eq_of_mem_replicate hd
  · norm_num [DT]
  · exact GameSession.step_eq estep s n
  · rw [GameSession.stepTrace_eq]; rfl
  · rw [GameSession.step_eq]; rfl

/-- Claim C5 (code evaluation): CreateSession never fails — the engine
constructor used by the code is infallible, the dispatcher has no error
branch, and every CreateSession returns SessionCreated and registers the
session.  The claimed Error("invalid_config") path does not exist. -/
theorem c5_create_session_always_succeeds (eng : Engine) (fid : String)
    (config : GameConfig) (reg : SessionRegistry) :
    handle_client_message eng fid (ClientMessage.CreateSession config) reg
      = (ServerMessage.SessionCreated fid
           (GameSession.new eng fid config).get_snapshot
           (serialize_grid (eng.new config).grid),
         insertSession reg fid (GameSession.new eng fid config)) ∧
    (∀ m c, (handle_client_message eng fid
        (ClientMessage.CreateSession config) reg).1 ≠ ServerMessage.Error m c) := by
  refine ⟨handle_create_eq eng fid config reg, ?_⟩
  intro m c h
  rw [handle_create_eq] at h
  exact ServerMessage.noConfusion h

/-- Claim C8: CloseSession on a present identity returns a StateUpdate carrying
that id and the zeroed placeholder snapshot, not a dedicated acknowledgment
variant. -/
theorem c8_close_returns_placeholder (eng : Engine) (fid id : String)
    (s : GameSession) (reg : SessionRegistry)
    (hl : lookupSession reg id = some s) :
    (handle_client_message eng fid (ClientMessage.CloseSession id) reg).1
      = ServerMessage.StateUpdate id closeSessionSnapshot ∧
    closeSessionSnapshot
      = { step := 0
          status := GameStatus.Running
          fugitive := AgentSnapshot.Fugitive (0, 0) (0, 0) none 0 0
          zombies := []
          maze_info := { width := 0, height := 0, cell_size := 0
                         start_position := (0, 0), exit_position := (0, 0) } } := by
  rw [handle_close_some eng fid id hl]
  exact ⟨rfl, rfl⟩

/-- Claim C8 witness: closing the demo session "A". -/
theorem c8_witness :
    (handle_client_message demoEngine "F" (ClientMessage.CloseSession "A") demoReg).1
      = ServerMessage.StateUpdate "A" closeSessionSnapshot ∧
    closeSessionSnapshot
      = { step := 0
          status := GameStatus.Running
          fugitive := AgentSnapshot.Fugitive (0, 0) (0, 0) none 0 0
          zombies := []
          maze_info := { width := 0, height := 0, cell_size := 0
                         start_position := (0, 0), exit_position := (0, 0) } } :=
  c8_close_returns_placeholder demoEngine "F" "A" (demoSession "A") demoReg rfl

/-- Claim C9: GetState on a present identity performs no stepping and mutates
nothing — the registry is returned unchanged, and the response is a
StateUpdate carrying the snapshot of the stored session exactly as it is. -/
theorem c9_get_state_is_pure (eng : Engine) (fid id : String) (s : GameSession)
    (reg : SessionRegistry) (hl : lookupSession reg id = some s) :
    handle_client_message eng fid (ClientMessage.GetState id) reg
      = (ServerMessage.StateUpdate id s.get_snapshot, reg) :=
  handle_get_some eng fid id hl

/-- Claim C9 witness: querying the demo session "A". -/
theorem c9_witness :
    handle_client_message demoEngine "F" (ClientMessage.GetState "A") demoReg
      = (ServerMessage.StateUpdate "A" (demoSession "A").get_snapshot, demoReg) :=
  c9_get_state_is_pure demoEngine "F" "A" (demoSession "A") demoReg rfl

/-- Claim C1 (code evaluation): in the StepSimulation dispatch the registry
mutex guard is held across the engine stepping — whenever the session is
present and at least one step is requested, an engine-step event occurs
strictly between acquiring and releasing the registry lock, so stepping one
session blocks every other session. -/
theorem c1_registry_lock_spans_stepping (reg : SessionRegistry) (id : String)
    (steps : Nat) (s : GameSession) (hl : lookupSession reg id = some s)
    (hpos : 0 < steps) :
    ∃ l r, stepSimulationLockTrace reg id steps
      = LockEvent.acquireRegistry ::
          (l ++ LockEvent.engineStep id :: (r ++ [LockEvent.releaseRegistry])) := by
  obtain ⟨n, rfl⟩ : ∃ n, steps = n + 1 :=
    ⟨steps - 1, (Nat.succ_pred_eq_of_pos hpos).symm⟩
  refine ⟨[LockEvent.acquireSession id],
          List.replicate n (LockEvent.engineStep id)
            ++ [LockEvent.releaseSession id], ?_⟩
  simp [stepSimulationLockTrace, hl, List.replicate_succ]

/-- Claim C1 witness: a registry with two sessions, stepping "A" once. -/
theorem c1_witness :
    ∃ l r, stepSimulationLockTrace demoReg "A" 1
      = LockEvent.acquireRegistry ::
          (l ++ LockEvent.engineStep "A" :: (r ++ [LockEvent.releaseRegistry])) :=
  c1_registry_lock_spans_stepping demoReg "A" 1 (demoSession "A") rfl
    (by decide)

/-- Claim C6: after CloseSession succeeds on a present identity, a subsequent
GetState with the same identity returns an Error with code "session_not_found"
(no session with that identity having been created in between). -/
theorem c6_get_after_close (eng : Engine) (fid gid id : String)
    (s : GameSession) (reg : SessionRegistry)
    (hnd : (reg.map Prod.fst).Nodup) (hl : lookupSession reg id = some s) :
    (handle_client_message eng fid (ClientMessage.CloseSession id) reg).1
      = ServerMessage.StateUpdate id closeSessionSnapshot ∧
    handle_client_message eng gid (ClientMessage.GetState id)
        (handle_client_message eng fid (ClientMessage.CloseSession id) reg).2
      = (ServerMessage.Error ("Session not found: " ++ id) "session_not_found",
         (handle_client_message eng fid (ClientMessage.CloseSession id) reg).2) := by
  have hclose := handle_close_some eng fid id hl
  constructor
  · rw [hclose]
  · rw [hclose]
    exact handle_get_none eng gid id (lookup_removeSession_snd hnd)

/-- Claim C6 witness: closing then querying the demo session "A". -/
theorem c6_witness :
    (handle_client_message demoEngine "F" (ClientMessage.CloseSession "A") demoReg).1
      = ServerMessage.StateUpdate "A" closeSessionSnapshot ∧
    handle_client_message demoEngine "G" (ClientMessage.GetState "A")
        (handle_client_message demoEngine "F" (ClientMessage.CloseSession "A") demoReg).2
      = (ServerMessage.Error ("Session not found: " ++ "A") "session_not_found",
         (handle_client_message demoEngine "F" (ClientMessage.CloseSession "A") demoReg).2) :=
  c6_get_after_close demoEngine "F" "G" "A" (demoSession "A") demoReg
    (by decide) rfl

/-- Claim C7: the serialized maze grid has exactly height rows of exactly width
entries; entry (x,y) is "walkable" iff the grid reports the cell-center world
point walkable, else "wall"; the grid is carried by the SessionCreated
response, and StateUpdate responses carry no maze grid. -/
theorem c7_maze_grid_shape (g : Grid2D) :
    (serialize_grid g).length = g.height ∧
    (∀ row, row ∈ serialize_grid g → row.length = g.width) ∧
    (∀ y x, y < g.height → x < g.width →
      ((serialize_grid g).getD y []).getD x ""
        = (if g.is_walkable (((x : ℚ) + 1/2) * g.cell_size,
              ((y : ℚ) + 1/2) * g.cell_size)
            then "walkable" else "wall")) ∧
    (∀ (eng : Engine) (fid : String) (config : GameConfig)
        (reg : SessionRegistry),
      mazeGridOf (handle_client_message eng fid
          (ClientMessage.CreateSession config) reg).1
        = some (serialize_grid (eng.new config).grid)) ∧
    (∀ id st, mazeGridOf (ServerMessage.StateUpdate id st) = none) := by
  refine ⟨?_, ?_, ?_, ?_, ?_⟩
  · simp [serialize_grid]
  · intro row hrow
    simp only [serialize_grid, List.mem_map] at hrow
    obtain ⟨y, _, hrow⟩ := hrow
    rw [← hrow]
    simp
  · intro y x hy hx
    simp [serialize_grid, List.getD, List.getElem?_map, List.getElem?_range,
      hy, hx]
  · intro eng fid config reg
    rw [handle_create_eq]
    rfl
  · intro id st
    rfl

/-- Claim C7 witness: the demo grid, sampling cell (0,0). -/
theorem c7_witness :
    (serialize_grid demoGrid).length = demoGrid.height ∧
    ((serialize_grid demoGrid).getD 0 []).getD 0 ""
      = (if demoGrid.is_walkable ((((0 : Nat) : ℚ) + 1/2) * demoGrid.cell_size,
            (((0 : Nat) : ℚ) + 1/2) * demoGrid.cell_size)
          then "walkable" else "wall") :=
  ⟨(c7_maze_grid_shape demoGrid).1,
   (c7_maze_grid_shape demoGrid).2.2.1 0 0 (by decide) (by decide)⟩

/-- Claim C10: in every registry state reachable from the empty registry by
dispatching any sequence of requests, each entry's key equals the id of the
stored session; and every response's session id equals the identity the
request addressed (or, for SessionCreated, the identity just registered). -/
theorem c10_registry_key_consistency (eng : Engine) :
    (∀ msgs : List (String × ClientMessage),
      KeyConsistent (runAll eng msgs [])) ∧
    (∀ (fid : String) (msg : ClientMessage) (reg : SessionRegistry),
      respIdOk msg (handle_client_message eng fid msg reg)) := by
  constructor
  · intro msgs
    exact keyConsistent_runAll eng msgs []
      (fun p hp => absurd hp (List.not_mem_nil p))
  · intro fid msg reg
    cases msg with
    | CreateSession config =>
        rw [handle_create_eq]
        exact ⟨GameSession.new eng fid config,
               lookupSession_insertSession_self reg fid _, rfl⟩
    | StepSimulation id steps =>
        cases hl : lookupSession reg id with
        | some s => rw [handle_step_some eng fid id steps hl]; exact rfl
        | none => rw [handle_step_none eng fid id steps hl]; exact trivial
    | GetState id =>
        cases hl : lookupSession reg id with
        | some s => rw [handle_get_some eng fid id hl]; exact rfl
        | none => rw [handle_get_none eng fid id hl]; exact trivial
    | CloseSession id =>
        cases hl : lookupSession reg id with
        | some s => rw [handle_close_some eng fid id hl]; exact rfl
        | none => rw [handle_close_none eng fid id hl]; exact trivial

end ZombieScapeServer
